import Mathlib

/-!
Verification of the mount-session core of `tenmicronsync.py`.

The `TenMicronManager` class owns a socket connection, formats commands of the
form `:<VERB><PARAMS>#`, and recovers from connection errors by reconnecting.
We embed it shallowly:

* Numeric values (temperatures in degrees, pressures in hPa) are carried as an
  exact number of tenths (an `Int` / `Nat`), so that the Python one-decimal
  formats `{x:.1f}` and `{x:+06.1f}` become exact string functions.
* The network is an explicit script of outcomes (`Env`) for the successive
  primitive socket calls; the manager state, fresh socket ids, the remaining
  script and the trace of observable socket events are bundled in `W`.
* Unbounded mutual retry in `send_command` / `receive_response` is modelled
  with fuel; fuel exhaustion is a distinct result (`RR.out`).
-/

set_option maxHeartbeats 1000000

namespace TenMicronSync

/-- Decimal digit characters of a natural number, most significant first.
The first argument is recursion fuel; fuel equal to the number itself is
always sufficient since the value shrinks by a factor of ten each step. -/
def natDigitsAux : Nat → Nat → List Char
  | 0, _ => []
  | fuel + 1, n =>
    if n = 0 then [] else natDigitsAux fuel (n / 10) ++ [Char.ofNat (48 + n % 10)]

/-- Decimal rendering of a natural number, as Python renders the integral
part of a fixed-point float. -/
def natStr (n : Nat) : String :=
  if n = 0 then "0" else String.mk (natDigitsAux n n)

/-- Model of the Python format `{x:.1f}` applied to an exact multiple of one
tenth; the argument is the value in tenths.  A sign appears only for negative
values; there is no padding. -/
def fmtFixed1 (t : Int) : String :=
  (if t < 0 then "-" else "") ++ natStr (t.natAbs / 10) ++ "." ++ natStr (t.natAbs % 10)

/-- Core of the Python format `{x:+06.1f}`: explicit sign, then zero padding
up to a total width of six characters, then the digits with one fractional
digit.  `m` is the magnitude in tenths. -/
def fmt06core (neg : Bool) (m : Nat) : String :=
  let core := natStr (m / 10) ++ "." ++ natStr (m % 10)
  let pad :=
    if core.length + 1 < 6 then String.mk (List.replicate (6 - 1 - core.length) '0') else ""
  (if neg then "-" else "+") ++ pad ++ core

/-- Model of the Python format `{x:+06.1f}` on an exact number of tenths. -/
def fmtSigned06 (t : Int) : String := fmt06core (decide (t < 0)) t.natAbs

/-- Wire command built by `setPressure` (source line 86): `:SRPRS{pressure:.1f}#`. -/
def setPressureCommand (t : Int) : String := ":SRPRS" ++ fmtFixed1 t ++ "#"

/-- Wire command built by `setTemperature` (source line 92): `:SRTMP{temperature:+06.1f}#`. -/
def setTemperatureCommand (t : Int) : String := ":SRTMP" ++ fmtSigned06 t ++ "#"

/-- Whitespace characters removed by Python `str.strip()`. -/
def pyIsSpace (c : Char) : Bool :=
  c = ' ' || c = '\t' || c = '\n' || c = '\r' || c = '\x0b' || c = '\x0c'

/-- Python `str.strip()`: remove whitespace from both ends. -/
def pyStrip (s : String) : String :=
  String.mk (((s.data.dropWhile pyIsSpace).reverse.dropWhile pyIsSpace).reverse)

/-- Python `str.rstrip` for the hash character (source lines 100 and 114):
drops every trailing hash. -/
def rstripHash (s : String) : String :=
  String.mk ((s.data.reverse.dropWhile (fun c => c = '#')).reverse)

/-- Value of a list of decimal digit characters, most significant first. -/
def digitsVal (cs : List Char) : Nat :=
  cs.foldl (fun a c => 10 * a + (c.toNat - 48)) 0

/-- Unsigned part of the Python `float()` conversion, restricted to plain
decimal literals: digits with an optional fractional part.  Anything else
(in particular the empty string) is `none`. -/
def pyFloatCore (cs : List Char) : Option ℚ :=
  let ip := cs.takeWhile Char.isDigit
  let rest := cs.dropWhile Char.isDigit
  match rest with
  | [] => if ip.isEmpty then none else some ((digitsVal ip : ℚ))
  | '.' :: fp =>
    if fp.all Char.isDigit && (!ip.isEmpty || !fp.isEmpty) then
      some ((digitsVal ip : ℚ) + (digitsVal fp : ℚ) / ((10 : ℚ) ^ fp.length))
    else none
  | _ => none

/-- Model of the Python `float()` conversion used by `getPressure` and
`getTemperature`, restricted to plain decimal literals with an optional
sign.  On anything else `float()` raises `ValueError`, modelled as `none`. -/
def pyFloat (s : String) : Option ℚ :=
  match s.data with
  | '+' :: cs => pyFloatCore cs
  | '-' :: cs => (pyFloatCore cs).map (fun q => -q)
  | cs => pyFloatCore cs

/-- Decoding applied by `getPressure` / `getTemperature` (source lines
99-105 and 113-119) to the result of `send_command`: a missing or falsy
(empty) response yields `none`; otherwise trailing hashes are removed and
the rest is parsed as a float, with parse failure yielding `none`. -/
def parseGetResponse (r : Option String) : Option ℚ :=
  match r with
  | none => none
  | some s => if s = "" then none else pyFloat (rstripHash s)

/-- Observable socket-level events of a run: socket object creation, a TCP
connect attempt and its outcome, a write and its outcome, a read and its
outcome (`none` meaning a socket error), and an explicit close. -/
inductive Ev where
  | openSock (id : Nat)
  | connTry (id : Nat) (ok : Bool)
  | sendBytes (id : Nat) (cmd : String) (ok : Bool)
  | recvBytes (id : Nat) (res : Option String)
  | closeSock (id : Nat)
deriving DecidableEq

/-- Outcome of one `recv` call: a payload, or a socket error. -/
inductive RecvR where
  | ok (payload : String)
  | err (msg : String)
deriving DecidableEq

/-- Script of outcomes the network gives to the successive primitive socket
calls: one entry per connect attempt (`none` meaning success, `some e` a
socket error `e`), per write (`true` meaning success), and per read. -/
structure Env where
  connS : List (Option String)
  sendS : List Bool
  recvS : List RecvR
deriving DecidableEq

/-- The whole world of a run: the manager's `connection` attribute, the next
fresh socket id, the remaining network script, and the event trace so far. -/
structure W where
  connection : Option Nat
  nextId : Nat
  env : Env
  evs : List Ev
deriving DecidableEq

/-- Consume the outcome of the next connect attempt; an exhausted script
behaves as a refused connection. -/
def popConn (w : W) : Option String × W :=
  match w.env.connS with
  | [] => (some ("script exhausted"), w)
  | r :: rs => (r, { w with env := { w.env with connS := rs } })

/-- Consume the outcome of the next write; an exhausted script behaves as a
socket error. -/
def popSend (w : W) : Bool × W :=
  match w.env.sendS with
  | [] => (false, w)
  | r :: rs => (r, { w with env := { w.env with sendS := rs } })

/-- Consume the outcome of the next read; an exhausted script behaves as a
socket error. -/
def popRecv (w : W) : RecvR × W :=
  match w.env.recvS with
  | [] => (RecvR.err ("script exhausted"), w)
  | r :: rs => (r, { w with env := { w.env with recvS := rs } })

/-- Append one observable event to the trace. -/
def emit (w : W) (e : Ev) : W := { w with evs := w.evs ++ [e] }

/-- `TenMicronManager.close` (source lines 124-129): if a connection is held,
close it and set the attribute to `None`; otherwise do nothing. -/
def close (w : W) : W :=
  match w.connection with
  | none => w
  | some c => { emit w (Ev.closeSock c) with connection := none }

/-- Result of `connect`: a normal return, or a raised `ConnectionError`
carrying its message. -/
inductive CR where
  | ok (w : W)
  | err (msg : String) (w : W)
deriving DecidableEq

/-- One iteration of the connect retry loop (source lines 52-54): a fresh
socket object is created and assigned to `self.connection` — overwriting,
without closing, whatever the attribute held before — and then the TCP
connect is attempted. -/
def connectAttempt (w : W) : Option String × W :=
  let id := w.nextId
  let w1 := { w with connection := some id, nextId := id + 1 }
  let w2 := emit w1 (Ev.openSock id)
  let p := popConn w2
  (p.1, emit p.2 (Ev.connTry id p.1.isNone))

/-- The connect retry loop of `TenMicronManager.connect` (source lines
51-61) with the given number of attempts remaining: on success return; on a
socket error call `close` and either retry or, on the last attempt, raise a
`ConnectionError` carrying the last underlying error. -/
def connectAux : Nat → W → CR
  | 0, w => CR.err ("unreachable") w
  | left + 1, w =>
    match connectAttempt w with
    | (none, w1) => CR.ok w1
    | (some e, w1) =>
      let w2 := close w1
      if left = 0 then CR.err ("Failed to connect after several attempts: " ++ e) w2
      else connectAux left w2

/-- `TenMicronManager.connect` (source lines 49-61): retry up to three times. -/
def connect (w : W) : CR := connectAux 3 w

/-- Result of a send/receive level call: a returned value, a propagating
`ConnectionError` (which, being an `OSError`, Python's `except socket.error`
also catches), an uncatchable crash, or fuel exhaustion standing for
nontermination of the unbounded retry recursion. -/
inductive RR (α : Type) where
  | ok (a : α) (w : W)
  | exn (msg : String) (w : W)
  | crash (w : W)
  | out
deriving DecidableEq

/-- `TenMicronManager.receive_response` (source lines 74-82): read once and
return the stripped text; on a socket error reconnect and retry only the
receive step.  A `ConnectionError` raised by the inner `connect` propagates.
Calling it with no connection would be an `AttributeError` (a crash). -/
def receive_response : Nat → W → RR String
  | 0, _ => RR.out
  | fuel + 1, w =>
    match w.connection with
    | none => RR.crash w
    | some c =>
      match popRecv w with
      | (RecvR.ok s, w1) => RR.ok (pyStrip s) (emit w1 (Ev.recvBytes c (some s)))
      | (RecvR.err _, w1) =>
        let w2 := emit w1 (Ev.recvBytes c none)
        match connect w2 with
        | CR.ok w3 => receive_response fuel w3
        | CR.err m w3 => RR.exn m w3

/-- `TenMicronManager.send_command` (source lines 63-72): if no connection is
held, do nothing and return `None`.  Otherwise write the command and read one
response.  A socket error from the write — or a `ConnectionError` escaping
`receive_response`, which `except socket.error` also catches — triggers a
reconnect followed by a full retry of the same command; a `ConnectionError`
raised by the reconnect itself propagates to the caller. -/
def send_command : Nat → String → W → RR (Option String)
  | 0, _, _ => RR.out
  | fuel + 1, cmd, w =>
    match w.connection with
    | none => RR.ok none w
    | some c =>
      match popSend w with
      | (true, w1) =>
        match receive_response fuel (emit w1 (Ev.sendBytes c cmd true)) with
        | RR.ok s w3 => RR.ok (some s) w3
        | RR.exn _ w3 =>
          match connect w3 with
          | CR.ok w4 => send_command fuel cmd w4
          | CR.err m w4 => RR.exn m w4
        | RR.crash w3 => RR.crash w3
        | RR.out => RR.out
      | (false, w1) =>
        match connect (emit w1 (Ev.sendBytes c cmd false)) with
        | CR.ok w3 => send_command fuel cmd w3
        | CR.err m w3 => RR.exn m w3

/-- `TenMicronManager.setPressure` (source lines 84-88): send the formatted
command and compare the response literally to the single character one. -/
def setPressure (fuel : Nat) (tenths : Int) (w : W) : RR Bool :=
  match send_command fuel (setPressureCommand tenths) w with
  | RR.ok r w1 => RR.ok (r == some ("1")) w1
  | RR.exn m w1 => RR.exn m w1
  | RR.crash w1 => RR.crash w1
  | RR.out => RR.out

/-- `TenMicronManager.setTemperature` (source lines 90-94): send the formatted
command and compare the response literally to the single character one. -/
def setTemperature (fuel : Nat) (tenths : Int) (w : W) : RR Bool :=
  match send_command fuel (setTemperatureCommand tenths) w with
  | RR.ok r w1 => RR.ok (r == some ("1")) w1
  | RR.exn m w1 => RR.exn m w1
  | RR.crash w1 => RR.crash w1
  | RR.out => RR.out

/-- `TenMicronManager.getPressure` (source lines 96-108): send `:GRPRS#` and
decode the response. -/
def getPressure (fuel : Nat) (w : W) : RR (Option ℚ) :=
  match send_command fuel (":GRPRS#") w with
  | RR.ok r w1 => RR.ok (parseGetResponse r) w1
  | RR.exn m w1 => RR.exn m w1
  | RR.crash w1 => RR.crash w1
  | RR.out => RR.out

/-- `TenMicronManager.getTemperature` (source lines 110-122): send `:GRTMP#`
and decode the response. -/
def getTemperature (fuel : Nat) (w : W) : RR (Option ℚ) :=
  match send_command fuel (":GRTMP#") w with
  | RR.ok r w1 => RR.ok (parseGetResponse r) w1
  | RR.exn m w1 => RR.exn m w1
  | RR.crash w1 => RR.crash w1
  | RR.out => RR.out

/-- `TenMicronManager.signal_handler` (source lines 43-47): close the
connection, then exit with status code zero. -/
def signal_handler (w : W) : W × Nat := (close w, 0)

/-- One command-line flag of the argument parser, with its default value. -/
structure CliFlag where
  flagName : String
  defaultVal : Option String
deriving DecidableEq

/-- The argument parser surface (source lines 162-164): exactly two flags. -/
def cliFlags : List CliFlag :=
  [{ flagName := "--ninaip", defaultVal := some ("127.0.0.1") },
   { flagName := "--tenmicronip", defaultVal := some ("1.1.1.1") }]

/-- The fixed sleep between loop iterations (source line 152), in seconds. -/
def sleepSeconds : Nat := 60

/-- The world a `connect` result carries, whether it returned or raised. -/
def CR.world : CR → W
  | CR.ok w => w
  | CR.err _ w => w

/-- The event trace a send/receive result carries. -/
def RR.trace {α : Type} : RR α → List Ev
  | RR.ok _ w => w.evs
  | RR.exn _ w => w.evs
  | RR.crash w => w.evs
  | RR.out => []

/-- Whether a `connect` call returned normally. -/
def CR.isOk : CR → Bool
  | CR.ok _ => true
  | CR.err _ _ => false

/-- The message of the `ConnectionError` a `connect` call raised, if any. -/
def CR.msg? : CR → Option String
  | CR.ok _ => none
  | CR.err m _ => some m

/-- The value a send/receive level call returned, if it returned normally. -/
def RR.val? {α : Type} : RR α → Option α
  | RR.ok a _ => some a
  | RR.exn _ _ => none
  | RR.crash _ => none
  | RR.out => none

/-- Number of connect attempts recorded in a trace. -/
def countConnTry (l : List Ev) : Nat :=
  l.countP (fun e => match e with | Ev.connTry _ _ => true | _ => false)

/-- Number of writes recorded in a trace. -/
def countSend (l : List Ev) : Nat :=
  l.countP (fun e => match e with | Ev.sendBytes _ _ _ => true | _ => false)

/-- Number of explicit socket closes recorded in a trace. -/
def countClose (l : List Ev) : Nat :=
  l.countP (fun e => match e with | Ev.closeSock _ => true | _ => false)

/-- Shape of the signed width-six field produced by `fmt06core`: six
characters, a leading sign, the dot in the fifth position followed by the
digit of tenths, and nothing but digits and the dot after the sign. -/
def fmtOkAt (neg : Bool) (m : Nat) : Prop :=
  (fmt06core neg m).length = 6
  ∧ (fmt06core neg m).data.head? = some (if neg then '-' else '+')
  ∧ (fmt06core neg m).data.drop 4 = ['.', Char.ofNat (48 + m % 10)]
  ∧ ∀ c ∈ (fmt06core neg m).data.drop 1, c.isDigit ∨ c = '.'

instance fmtOkAtDecidable (neg : Bool) (m : Nat) : Decidable (fmtOkAt neg m) := by
  unfold fmtOkAt; infer_instance

/-- A session holding connection 0, with the network ready to accept one
write and answer one read with the single status digit. -/
def wAck : W :=
  { connection := some 0, nextId := 1,
    env := { connS := [], sendS := [true], recvS := [RecvR.ok ("1")] }, evs := [] }

/-- A session holding connection 0, with the network rejecting the first
write, accepting one reconnect, then accepting the retried write and
answering the read. -/
def wDrop : W :=
  { connection := some 0, nextId := 1,
    env := { connS := [none], sendS := [false, true], recvS := [RecvR.ok ("1")] },
    evs := [] }

/-- A disconnected session over an empty network script. -/
def wDisc : W :=
  { connection := none, nextId := 0,
    env := { connS := [], sendS := [], recvS := [] }, evs := [] }

/-- A connected session over an empty network script. -/
def wConn : W :=
  { connection := some 0, nextId := 1,
    env := { connS := [], sendS := [], recvS := [] }, evs := [] }

/-- A disconnected session whose connect attempts will all be refused. -/
def wRefuse : W :=
  { connection := none, nextId := 0,
    env := { connS := [some ("refused a"), some ("refused b"), some ("refused c")],
             sendS := [], recvS := [] },
    evs := [] }

/-- A session holding connection 4 whose next connect attempt fails once and
then succeeds; fresh socket ids start at 5. -/
def wFlap : W :=
  { connection := some 4, nextId := 5,
    env := { connS := [some ("refused"), none], sendS := [], recvS := [] },
    evs := [] }

/-- A session holding connection 0 whose read answers the pressure string. -/
def wPress : W :=
  { connection := some 0, nextId := 1,
    env := { connS := [], sendS := [true], recvS := [RecvR.ok ("1013.20#")] },
    evs := [] }

/-- A session holding connection 0 whose read answers a rejection digit. -/
def wNack : W :=
  { connection := some 0, nextId := 1,
    env := { connS := [], sendS := [true], recvS := [RecvR.ok ("0")] }, evs := [] }

/-- A session holding connection 0 whose first read fails, followed by one
successful reconnect and a successful retried read. -/
def wRecvDrop : W :=
  { connection := some 0, nextId := 1,
    env := { connS := [none], sendS := [], recvS := [RecvR.err ("reset"), RecvR.ok ("7.0")] },
    evs := [] }

/- ------------------------------------------------------------------ -/
/- Helper lemmas.                                                      -/
/- ------------------------------------------------------------------ -/

theorem digitCharOk : ∀ d : Nat, d < 10 →
    (Char.ofNat (48 + d)).isDigit ∧ Char.ofNat (48 + d) ≠ '+' ∧ Char.ofNat (48 + d) ≠ '-' := by
  decide

theorem natDigitsAux_digits :
    ∀ (fuel n : Nat), ∀ c ∈ natDigitsAux fuel n, c.isDigit := by
  intro fuel
  induction fuel with
  | zero => intro n c hc; simp [natDigitsAux] at hc
  | succ f ih =>
    intro n c hc
    by_cases hn : n = 0
    · simp [natDigitsAux, hn] at hc
    · simp only [natDigitsAux, if_neg hn, List.mem_append, List.mem_singleton] at hc
      rcases hc with hc | hc
      · exact ih _ _ hc
      · subst hc
        exact (digitCharOk (n % 10) (Nat.mod_lt _ (by norm_num))).1

theorem natStr_digits : ∀ (n : Nat), ∀ c ∈ (natStr n).data, c.isDigit := by
  intro n c hc
  by_cases hn : n = 0
  · subst hn
    have h0 : (natStr 0).data = ['0'] := rfl
    rw [h0] at hc
    simp at hc
    subst hc
    decide
  · have h1 : (natStr n).data = natDigitsAux n n := by
      unfold natStr
      rw [if_neg hn]
    exact natDigitsAux_digits n n c (h1 ▸ hc)

set_option maxRecDepth 4000 in
theorem fmt06_bounded : ∀ m : Nat, m < 1000 → fmtOkAt false m ∧ fmtOkAt true m := by
  decide

theorem countConnTry_append (a b : List Ev) :
    countConnTry (a ++ b) = countConnTry a + countConnTry b := by
  simp [countConnTry, List.countP_append]

theorem connectAttempt_spec (w : W) :
    (connectAttempt w).2.evs
        = w.evs ++ [Ev.openSock w.nextId, Ev.connTry w.nextId (connectAttempt w).1.isNone]
    ∧ (connectAttempt w).2.nextId = w.nextId + 1
    ∧ (connectAttempt w).2.connection = some w.nextId
    ∧ (connectAttempt w).2.env.sendS = w.env.sendS
    ∧ (connectAttempt w).2.env.recvS = w.env.recvS := by
  rcases hC : w.env.connS with _ | ⟨r, rs⟩ <;>
    simp [connectAttempt, popConn, hC, emit]

theorem countConnTry_close (w : W) : countConnTry (close w).evs = countConnTry w.evs := by
  cases h : w.connection <;>
    simp [close, emit, h, countConnTry, List.countP_append]

theorem connectAux_connTry_bound :
    ∀ (k : Nat) (w : W),
      countConnTry (CR.world (connectAux k w)).evs ≤ countConnTry w.evs + k := by
  intro k
  induction k with
  | zero =>
    intro w
    simp [connectAux, CR.world]
  | succ k ih =>
    intro w
    rcases hA : connectAttempt w with ⟨r, w1⟩
    have h1 : countConnTry w1.evs = countConnTry w.evs + 1 := by
      have hs := (connectAttempt_spec w).1
      rw [hA] at hs
      dsimp only at hs
      simp [hs, countConnTry_append, countConnTry]
    cases r with
    | none =>
      simp only [connectAux, hA, CR.world]
      omega
    | some e =>
      by_cases hk : k = 0
      · subst hk
        simp [connectAux, hA, CR.world]
        have h2 := countConnTry_close w1
        omega
      · simp [connectAux, hA, hk]
        have h2 := countConnTry_close w1
        have h3 := ih (close w1)
        omega

theorem connectAux_closes_fresh :
    ∀ (k : Nat) (w : W) (i : Nat),
      Ev.closeSock i ∈ (CR.world (connectAux k w)).evs →
      Ev.closeSock i ∈ w.evs ∨ w.nextId ≤ i := by
  intro k
  induction k with
  | zero =>
    intro w i h
    simp only [connectAux, CR.world] at h
    exact Or.inl h
  | succ k ih =>
    intro w i h
    rcases hA : connectAttempt w with ⟨r, w1⟩
    have hs := connectAttempt_spec w
    rw [hA] at hs
    dsimp only at hs
    obtain ⟨hevs, hnid, hconn, -, -⟩ := hs
    cases r with
    | none =>
      simp only [connectAux, hA, CR.world] at h
      rw [hevs] at h
      rcases List.mem_append.mp h with h | h
      · exact Or.inl h
      · simp at h
    | some e =>
      have hcloe : (close w1).evs = w1.evs ++ [Ev.closeSock w.nextId] := by
        simp [close, emit, hconn]
      have hclon : (close w1).nextId = w.nextId + 1 := by
        simp [close, emit, hconn, hnid]
      have hmem : Ev.closeSock i ∈ (close w1).evs → Ev.closeSock i ∈ w.evs ∨ w.nextId ≤ i := by
        intro hm
        rw [hcloe, hevs] at hm
        rcases List.mem_append.mp hm with hm | hm
        · rcases List.mem_append.mp hm with hm | hm
          · exact Or.inl hm
          · simp at hm
        · simp at hm
          exact Or.inr (le_of_eq hm.symm)
      by_cases hk : k = 0
      · subst hk
        simp [connectAux, hA, CR.world] at h
        exact hmem h
      · simp only [connectAux, hA, if_neg hk] at h
        rcases ih (close w1) i h with h | h
        · exact hmem h
        · rw [hclon] at h
          exact Or.inr (by omega)

/- ------------------------------------------------------------------ -/
/- Claim theorems.                                                     -/
/- ------------------------------------------------------------------ -/

/-- Claim C1 counterexample: the input 7.0 (seventy tenths) does not yield
the claimed command `:SRTMP+07.0#`.  The Python width of six includes the
sign, so the command built — and actually written to the socket in a run of
`setTemperature` — is `:SRTMP+007.0#`. -/
theorem setTemperature_seven_not_as_claimed :
    setTemperatureCommand 70 = ":SRTMP+007.0#"
    ∧ ((":SRTMP+007.0#" : String) == ":SRTMP+07.0#") = false
    ∧ (RR.trace (setTemperature 3 70 wAck)).contains (Ev.sendBytes 0 (":SRTMP+007.0#") true)
        = true
    ∧ (RR.trace (setTemperature 3 70 wAck)).contains (Ev.sendBytes 0 (":SRTMP+07.0#") true)
        = false := by
  decide

/-- Claim C1 (amended): for every temperature t carried exactly in tenths
with |t| at most 99.9, setTemperature(t) sends `:SRTMP` followed by a
signed, zero-padded numeric field of total width exactly 6 characters
including the sign, with one fractional digit, followed by `#`; in
particular the input 7.0 yields the exact command `:SRTMP+007.0#` (the
claimed `:SRTMP+07.0#` would have a field of width five). -/
theorem setTemperature_command_format :
    ∀ t : Int, t.natAbs < 1000 →
      setTemperatureCommand t = ":SRTMP" ++ fmtSigned06 t ++ "#"
      ∧ (fmtSigned06 t).length = 6
      ∧ (fmtSigned06 t).data.head? = some (if t < 0 then '-' else '+')
      ∧ (fmtSigned06 t).data.drop 4 = ['.', Char.ofNat (48 + t.natAbs % 10)]
      ∧ (∀ c ∈ (fmtSigned06 t).data.drop 1, c.isDigit ∨ c = '.')
      ∧ setTemperatureCommand 70 = ":SRTMP+007.0#" := by
  intro t ht
  refine ⟨rfl, ?_⟩
  by_cases hneg : t < 0
  · obtain ⟨hl, hh, hd, hc⟩ := (fmt06_bounded t.natAbs ht).2
    have hf : fmtSigned06 t = fmt06core true t.natAbs := by
      simp [fmtSigned06, hneg]
    rw [hf]
    rw [if_pos hneg]
    exact ⟨hl, hh, hd, hc, by decide⟩
  · obtain ⟨hl, hh, hd, hc⟩ := (fmt06_bounded t.natAbs ht).1
    have hf : fmtSigned06 t = fmt06core false t.natAbs := by
      simp [fmtSigned06, hneg]
    rw [hf]
    rw [if_neg hneg]
    exact ⟨hl, hh, hd, hc, by decide⟩

/-- Witness for the amended C1 theorem at the concrete input -3.2 degrees. -/
theorem setTemperature_command_format_witness :
    ((-32 : Int).natAbs < 1000) ∧ (fmtSigned06 (-32)).length = 6 :=
  ⟨by decide, (setTemperature_command_format (-32) (by decide)).2.1⟩

/-- Claim C7: for every pressure with one decimal place (carried exactly in
tenths, nonnegative), setPressure sends exactly `:SRPRS` followed by the
value formatted with one fractional digit, no sign and no padding, followed
by `#`; in particular 1013.2 yields `:SRPRS1013.2#`. -/
theorem setPressure_command_plain :
    ∀ n : Nat,
      fmtFixed1 (n : Int) = natStr (n / 10) ++ "." ++ natStr (n % 10)
      ∧ (∀ c ∈ (fmtFixed1 (n : Int)).data, c.isDigit ∨ c = '.')
      ∧ setPressureCommand (n : Int) =
          ":SRPRS" ++ (natStr (n / 10) ++ "." ++ natStr (n % 10)) ++ "#"
      ∧ setPressureCommand 10132 = ":SRPRS1013.2#" := by
  intro n
  have hneg : ¬((n : Int) < 0) := Int.not_lt.mpr (Int.natCast_nonneg n)
  have habs : ((n : Int)).natAbs = n := Int.natAbs_ofNat n
  have h1 : fmtFixed1 (n : Int) = natStr (n / 10) ++ "." ++ natStr (n % 10) := by
    simp [fmtFixed1, hneg, habs, String.empty_append]
  refine ⟨h1, ?_, ?_, by decide⟩
  · intro c hc
    rw [h1] at hc
    simp only [String.data_append, List.mem_append] at hc
    rcases hc with (hc | hc) | hc
    · exact Or.inl (natStr_digits _ _ hc)
    · right
      simpa using hc
    · exact Or.inl (natStr_digits _ _ hc)
  · show ":SRPRS" ++ fmtFixed1 (n : Int) ++ "#" = _
    rw [h1]

/-- Witness for the C7 theorem at the concrete input 1013.2 hPa. -/
theorem setPressure_command_plain_witness :
    setPressureCommand ((10132 : Nat) : Int) = ":SRPRS1013.2#"
    ∧ fmtFixed1 ((10132 : Nat) : Int) = natStr (10132 / 10) ++ "." ++ natStr (10132 % 10) :=
  ⟨(setPressure_command_plain 10132).2.2.2, (setPressure_command_plain 10132).1⟩

/-- Claim C8: close transitions the session to Disconnected and is
idempotent (a no-op when already disconnected, safe to call twice), and the
interrupt handler closes the connection exactly once when one is held and
exits with status code 0 without raising. -/
theorem close_idempotent :
    (∀ w : W, close (close w) = close w)
    ∧ (∀ w : W, w.connection = none → close w = w)
    ∧ (∀ w : W, (close w).connection = none)
    ∧ (∀ (w : W) (c : Nat), w.connection = some c →
        (close w).evs = w.evs ++ [Ev.closeSock c]
        ∧ countClose (signal_handler w).1.evs = countClose w.evs + 1)
    ∧ (∀ w : W, (signal_handler w).2 = 0 ∧ (signal_handler w).1 = close w) := by
  refine ⟨?_, ?_, ?_, ?_, ?_⟩
  · intro w
    cases h : w.connection with
    | none => simp [close, h]
    | some c => simp [close, emit, h]
  · intro w h
    simp [close, h]
  · intro w
    cases h : w.connection with
    | none => simp [close, h]
    | some c => simp [close, emit, h]
  · intro w c h
    constructor
    · simp [close, emit, h]
    · simp [signal_handler, close, emit, h, countClose, List.countP_append]
  · intro w
    exact ⟨rfl, rfl⟩

/-- Witness for the C8 theorem on a concrete connected session. -/
theorem close_idempotent_witness :
    wConn.connection = some 0 ∧ (close wConn).evs = wConn.evs ++ [Ev.closeSock 0] :=
  ⟨rfl, (close_idempotent.2.2.2.1 wConn 0 rfl).1⟩

/-- Claim C9 counterexample: the argument parser defines neither a --nosync
flag nor an --interval flag. -/
theorem cli_missing_flags :
    (cliFlags.map CliFlag.flagName).contains ("--nosync") = false
    ∧ (cliFlags.map CliFlag.flagName).contains ("--interval") = false := by
  decide

/-- Claim C9 (amended): the CLI accepts exactly the flags --ninaip (weather
host, default 127.0.0.1) and --tenmicronip (mount host, default 1.1.1.1);
there is no --nosync and no --interval flag, and the interval between ticks
is fixed at 60 seconds. -/
theorem cli_flags_exact :
    cliFlags.map CliFlag.flagName = [("--ninaip"), ("--tenmicronip")]
    ∧ cliFlags.map CliFlag.defaultVal = [some ("127.0.0.1"), some ("1.1.1.1")]
    ∧ sleepSeconds = 60 := by
  decide

/-- Claim C10: if send_command is called while no connection is held it
performs no I/O (the world, in particular the event trace, is unchanged) and
returns None; consequently the setters return false and the getters return
None, and nothing raises. -/
theorem disconnected_returns_none :
    ∀ (fuel : Nat) (cmd : String) (t : Int) (w : W), w.connection = none →
      send_command (fuel + 1) cmd w = RR.ok none w
      ∧ setPressure (fuel + 1) t w = RR.ok false w
      ∧ setTemperature (fuel + 1) t w = RR.ok false w
      ∧ getPressure (fuel + 1) w = RR.ok none w
      ∧ getTemperature (fuel + 1) w = RR.ok none w := by
  intro fuel cmd t w h
  have hs : ∀ c : String, send_command (fuel + 1) c w = RR.ok none w := by
    intro c
    simp [send_command, h]
  refine ⟨hs cmd, ?_, ?_, ?_, ?_⟩
  · simp [setPressure, hs]
  · simp [setTemperature, hs]
  · simp [getPressure, hs, parseGetResponse]
  · simp [getTemperature, hs, parseGetResponse]

/-- Witness for the C10 theorem on a concrete disconnected session. -/
theorem disconnected_returns_none_witness :
    wDisc.connection = none ∧ setPressure 1 10132 wDisc = RR.ok false wDisc :=
  ⟨rfl, (disconnected_returns_none 0 (":GRPRS#") 10132 wDisc rfl).2.1⟩

/-- Claim C2: a connection-level error on the write makes send_command
reconnect and re-issue the same command from scratch (the trace shows the
failed write, the reconnect, and a fresh write of the identical command);
a connection-level error on the read makes receive_response reconnect and
retry only the receive step — no write event is added and the write script
is untouched. -/
theorem send_reconnect_resend_receive_retry :
    (∀ (fuel : Nat) (cmd s : String) (w : W) (c : Nat) (srest : List Bool)
       (crest : List (Option String)) (rrest : List RecvR),
       w.connection = some c →
       w.env.sendS = false :: true :: srest →
       w.env.connS = none :: crest →
       w.env.recvS = RecvR.ok s :: rrest →
       RR.val? (send_command (fuel + 3) cmd w) = some (some (pyStrip s))
       ∧ RR.trace (send_command (fuel + 3) cmd w) = w.evs ++
           [Ev.sendBytes c cmd false, Ev.openSock w.nextId, Ev.connTry w.nextId true,
            Ev.sendBytes w.nextId cmd true, Ev.recvBytes w.nextId (some s)])
    ∧ (∀ (fuel : Nat) (s e : String) (w : W) (c : Nat)
         (crest : List (Option String)) (rrest : List RecvR),
         w.connection = some c →
         w.env.connS = none :: crest →
         w.env.recvS = RecvR.err e :: RecvR.ok s :: rrest →
         RR.val? (receive_response (fuel + 2) w) = some (pyStrip s)
         ∧ RR.trace (receive_response (fuel + 2) w) = w.evs ++
             [Ev.recvBytes c none, Ev.openSock w.nextId, Ev.connTry w.nextId true,
              Ev.recvBytes w.nextId (some s)]
         ∧ countSend (RR.trace (receive_response (fuel + 2) w)) = countSend w.evs) := by
  constructor
  · intro fuel cmd s w c srest crest rrest hc hs hcs hr
    obtain ⟨conn, nid, ⟨cS, sS, rS⟩, evs⟩ := w
    simp only at hc hs hcs hr
    subst hc hs hcs hr
    constructor <;>
      simp [send_command, receive_response, connect, connectAux, connectAttempt,
        popConn, popSend, popRecv, emit, close, RR.val?, RR.trace]
  · intro fuel s e w c crest rrest hc hcs hr
    obtain ⟨conn, nid, ⟨cS, sS, rS⟩, evs⟩ := w
    simp only at hc hcs hr
    subst hc hcs hr
    refine ⟨?_, ?_, ?_⟩ <;>
      simp [receive_response, connect, connectAux, connectAttempt,
        popConn, popRecv, emit, close, RR.val?, RR.trace, countSend, List.countP_append]

/-- Witness for the C2 theorem: a dropped write on connection 0 is followed
by a reconnect (socket 1) and a fresh write of the identical command. -/
theorem send_reconnect_resend_witness :
    RR.val? (send_command 3 (":GRPRS#") wDrop) = some (some (pyStrip ("1")))
    ∧ RR.trace (send_command 3 (":GRPRS#") wDrop) = wDrop.evs ++
        [Ev.sendBytes 0 (":GRPRS#") false, Ev.openSock 1, Ev.connTry 1 true,
         Ev.sendBytes 1 (":GRPRS#") true, Ev.recvBytes 1 (some ("1"))] :=
  send_reconnect_resend_receive_retry.1 0 (":GRPRS#") ("1") wDrop 0 [] [] []
    rfl rfl rfl rfl

/-- Claim C3: within a single connect() call at most three attempts are
made; if all three fail, connect raises a ConnectionError carrying the last
underlying error and leaves the session disconnected; if the first, second
or third attempt succeeds, connect returns normally with the session
connected to the newly opened socket. -/
theorem connect_bounded_retry :
    (∀ w : W, countConnTry (CR.world (connect w)).evs ≤ countConnTry w.evs + 3)
    ∧ (∀ (w : W) (e1 e2 e3 : String) (rest : List (Option String)),
        w.env.connS = some e1 :: some e2 :: some e3 :: rest →
        CR.isOk (connect w) = false
        ∧ CR.msg? (connect w) = some ("Failed to connect after several attempts: " ++ e3)
        ∧ (CR.world (connect w)).connection = none)
    ∧ (∀ (w : W) (rest : List (Option String)),
        w.env.connS = none :: rest →
        CR.isOk (connect w) = true
        ∧ (CR.world (connect w)).connection = some w.nextId)
    ∧ (∀ (w : W) (e1 : String) (rest : List (Option String)),
        w.env.connS = some e1 :: none :: rest →
        CR.isOk (connect w) = true
        ∧ (CR.world (connect w)).connection = some (w.nextId + 1))
    ∧ (∀ (w : W) (e1 e2 : String) (rest : List (Option String)),
        w.env.connS = some e1 :: some e2 :: none :: rest →
        CR.isOk (connect w) = true
        ∧ (CR.world (connect w)).connection = some (w.nextId + 2)) := by
  refine ⟨fun w => connectAux_connTry_bound 3 w, ?_, ?_, ?_, ?_⟩
  · intro w e1 e2 e3 rest h
    obtain ⟨conn, nid, ⟨cS, sS, rS⟩, evs⟩ := w
    simp only at h
    subst h
    refine ⟨?_, ?_, ?_⟩ <;>
      simp [connect, connectAux, connectAttempt, popConn, emit, close,
        CR.isOk, CR.msg?, CR.world]
  · intro w rest h
    obtain ⟨conn, nid, ⟨cS, sS, rS⟩, evs⟩ := w
    simp only at h
    subst h
    constructor <;>
      simp [connect, connectAux, connectAttempt, popConn, emit, close,
        CR.isOk, CR.world]
  · intro w e1 rest h
    obtain ⟨conn, nid, ⟨cS, sS, rS⟩, evs⟩ := w
    simp only at h
    subst h
    constructor <;>
      simp [connect, connectAux, connectAttempt, popConn, emit, close,
        CR.isOk, CR.world]
  · intro w e1 e2 rest h
    obtain ⟨conn, nid, ⟨cS, sS, rS⟩, evs⟩ := w
    simp only at h
    subst h
    constructor <;>
      simp [connect, connectAux, connectAttempt, popConn, emit, close,
        CR.isOk, CR.world]

/-- Witness for the C3 theorem: three refused attempts raise a
ConnectionError carrying the last error and leave the session
disconnected. -/
theorem connect_bounded_retry_witness :
    CR.msg? (connect wRefuse) = some ("Failed to connect after several attempts: refused c")
    ∧ (CR.world (connect wRefuse)).connection = none :=
  ⟨(connect_bounded_retry.2.1 wRefuse ("refused a") ("refused b") ("refused c") [] rfl).2.1,
   (connect_bounded_retry.2.1 wRefuse ("refused a") ("refused b") ("refused c") [] rfl).2.2⟩

/-- Claim C4 counterexample: in a reachable reconnect (write fails on
connection 0, reconnect opens and connects socket 1, command is re-sent),
the prior connection 0 is never closed — no close event for socket 0
appears anywhere in the trace, although the new connection is established
and used. -/
theorem reconnect_without_closing_prior :
    ((RR.trace (send_command 5 (":GRPRS#") wDrop)).contains (Ev.closeSock 0)) = false
    ∧ ((RR.trace (send_command 5 (":GRPRS#") wDrop)).contains (Ev.openSock 1)) = true
    ∧ ((RR.trace (send_command 5 (":GRPRS#") wDrop)).contains (Ev.connTry 1 true)) = true
    ∧ ((RR.trace (send_command 5 (":GRPRS#") wDrop)).contains
        (Ev.sendBytes 1 (":GRPRS#") true)) = true := by
  decide

/-- Claim C4 (amended): the session attribute references at most one
connection at a time, but a reconnect does not close the prior connection
before establishing the new one: `connect` only ever closes sockets it
opened itself during its own failed attempts (every close event it adds is
of a socket id at least `nextId`, hence fresh), and the previously held
connection is merely dropped. -/
theorem connect_closes_only_fresh :
    ∀ (w : W) (i : Nat),
      Ev.closeSock i ∈ (CR.world (connect w)).evs →
      Ev.closeSock i ∈ w.evs ∨ w.nextId ≤ i := by
  intro w i h
  exact connectAux_closes_fresh 3 w i h

/-- Witness for the amended C4 theorem: the close that does occur inside a
failed attempt is of the freshly opened socket 5, not of a prior one. -/
theorem connect_closes_only_fresh_witness :
    (Ev.closeSock 5 ∈ (CR.world (connect wFlap)).evs)
    ∧ (Ev.closeSock 5 ∈ wFlap.evs ∨ wFlap.nextId ≤ 5) :=
  ⟨by decide, connect_closes_only_fresh wFlap 5 (by decide)⟩

/-- Claim C5: on a completed exchange a setter returns exactly the boolean
"the trimmed response equals the single character 1"; a response of 0 or an
empty response yields false, and the setter returns normally (it does not
raise). -/
theorem set_response_literal_one :
    ∀ (fuel : Nat) (t : Int) (raw : String) (w : W) (c : Nat)
      (srest : List Bool) (rrest : List RecvR),
      w.connection = some c →
      w.env.sendS = true :: srest →
      w.env.recvS = RecvR.ok raw :: rrest →
      RR.val? (setPressure (fuel + 2) t w) = some (pyStrip raw == "1")
      ∧ RR.val? (setTemperature (fuel + 2) t w) = some (pyStrip raw == "1")
      ∧ ((pyStrip raw == "1") = true ↔ pyStrip raw = "1") := by
  intro fuel t raw w c srest rrest hc hs hr
  obtain ⟨conn, nid, ⟨cS, sS, rS⟩, evs⟩ := w
  simp only at hc hs hr
  subst hc hs hr
  refine ⟨?_, ?_, beq_iff_eq⟩ <;>
    simp [setPressure, setTemperature, send_command, receive_response,
      popSend, popRecv, emit, RR.val?]

/-- Witness for the C5 theorem: the response 0 yields false from
setPressure, without raising. -/
theorem set_response_literal_one_witness :
    RR.val? (setPressure 2 10132 wNack) = some (pyStrip ("0") == "1") :=
  (set_response_literal_one 0 10132 ("0") wNack 0 [] [] rfl rfl rfl).1

/-- Claim C6: a get operation performs exactly one write and one read (no
retry on a data error) and returns, without raising, the decoding of the
trimmed response: trailing hash characters are stripped and the rest is
parsed as a decimal number, a non-numeric remainder yielding None. -/
theorem get_response_decoding :
    ∀ (fuel : Nat) (raw : String) (w : W) (c : Nat)
      (srest : List Bool) (rrest : List RecvR),
      w.connection = some c →
      w.env.sendS = true :: srest →
      w.env.recvS = RecvR.ok raw :: rrest →
      (RR.val? (getPressure (fuel + 2) w) = some (parseGetResponse (some (pyStrip raw)))
       ∧ RR.trace (getPressure (fuel + 2) w)
           = w.evs ++ [Ev.sendBytes c (":GRPRS#") true, Ev.recvBytes c (some raw)])
      ∧ (RR.val? (getTemperature (fuel + 2) w) = some (parseGetResponse (some (pyStrip raw)))
         ∧ RR.trace (getTemperature (fuel + 2) w)
             = w.evs ++ [Ev.sendBytes c (":GRTMP#") true, Ev.recvBytes c (some raw)])
      ∧ (∀ q : ℚ, pyFloat (rstripHash (pyStrip raw)) = some q →
           parseGetResponse (some (pyStrip raw)) = some q)
      ∧ (pyFloat (rstripHash (pyStrip raw)) = none →
           parseGetResponse (some (pyStrip raw)) = none) := by
  intro fuel raw w c srest rrest hc hs hr
  have hdec : ∀ q : ℚ, pyFloat (rstripHash (pyStrip raw)) = some q →
      parseGetResponse (some (pyStrip raw)) = some q := by
    intro q hq
    by_cases hz : pyStrip raw = ""
    · rw [hz] at hq
      rw [show pyFloat (rstripHash ("")) = none from rfl] at hq
      exact Option.noConfusion hq
    · simp [parseGetResponse, hz, hq]
  have hdecn : pyFloat (rstripHash (pyStrip raw)) = none →
      parseGetResponse (some (pyStrip raw)) = none := by
    intro hq
    by_cases hz : pyStrip raw = ""
    · simp [parseGetResponse, hz]
    · simp [parseGetResponse, hz, hq]
  obtain ⟨conn, nid, ⟨cS, sS, rS⟩, evs⟩ := w
  simp only at hc hs hr
  subst hc hs hr
  refine ⟨⟨?_, ?_⟩, ⟨?_, ?_⟩, hdec, hdecn⟩ <;>
    simp [getPressure, getTemperature, send_command, receive_response,
      popSend, popRecv, emit, RR.val?, RR.trace]

/-- Witness for the C6 theorem: the response 1013.20# decodes to the
pressure 1013.2. -/
theorem get_response_decoding_witness :
    RR.val? (getPressure 2 wPress) = some (some ((1013.2 : ℚ))) := by
  have h := (get_response_decoding 0 ("1013.20#") wPress 0 [] [] rfl rfl rfl).1.1
  rw [h]
  have h2 : parseGetResponse (some (pyStrip ("1013.20#")))
      = some (((1013 : Nat) : ℚ) + ((20 : Nat) : ℚ) / ((10 : ℚ) ^ (2 : Nat))) := rfl
  rw [h2]
  norm_num

end TenMicronSync
